import Mathlib

/-!
Shallow embedding of `src/static/secret_logic.js` (the hidden challenge-gate
script).  The script is a single-threaded event-driven state machine: clicks
on three invisible zones, two timed "blind" clicks, a 3-second click burst,
and a final verification fetch.  Every handler below is translated directly
from the corresponding JavaScript handler; timestamps are `Int` milliseconds
(the script uses `Date.now()` differences).
-/

namespace SecretLogic

/-- Label shown on zone 3 (`z3.textContent`): initially empty, then the
string "START" when armed, a click-rate number during the burst, and "OK"
on success. -/
inductive Zone3Label
  | empty
  | startLabel
  | count (n : Nat)
  | ok
  deriving DecidableEq, Repr

/-- The message argument passed to `resetSequence` at each call site,
with the dynamic data each template string interpolates. -/
inductive ResetMsg
  | badTiming2 (elapsedMs : Int)
  | badTiming3 (elapsedMs : Int)
  | badTiming4 (elapsedMs : Int)
  | burstShort (total : Nat)
  | commError
  deriving DecidableEq, Repr

/-- Outcome of the verification call `fetch` to the path /_s_a_p_: either the JSON
body parsed (with an optional `path` field) or a network/parse error
(the promise rejected and the `.catch` handler runs). -/
inductive FetchResult
  | ok (path : Option String)
  | err
  deriving DecidableEq, Repr

/-- The mutable state of the script: the module-level `let` bindings
(`state`, `lastClickTimestamp`, `clickerTimestamps`, `cpsUpdateInterval`,
`timerInterval`, `timerElement`), the closure state of `startTimer`
(`startTime`, `durationSeconds`), whether the 3000 ms burst `setTimeout`
is scheduled and not yet fired, which zone is in the DOM, the label of zone 3,
and instrumentation of the calls to `window.location.reload()`,
`resetSequence(message)`, `fetch` and `window.location.href`. -/
structure SysState where
  state : Nat
  lastClickTimestamp : Int
  clickerTimestamps : List Int
  cpsActive : Bool
  timerActive : Bool
  timerElement : Bool
  timerStart : Int
  timerDurationMs : Int
  burstPending : Bool
  mountedZone : Nat
  zone3Label : Zone3Label
  reloadRequested : Bool
  resetMessage : Option ResetMsg
  fetchIssued : Bool
  navigateTo : Option String
  deriving DecidableEq, Repr

/-- State right after `DOMContentLoaded`: all counters zero, zone 1 mounted,
no timers, no reload. -/
def initState : SysState where
  state := 0
  lastClickTimestamp := 0
  clickerTimestamps := []
  cpsActive := false
  timerActive := false
  timerElement := false
  timerStart := 0
  timerDurationMs := 0
  burstPending := false
  mountedZone := 1
  zone3Label := .empty
  reloadRequested := false
  resetMessage := none
  fetchIssued := false
  navigateTo := none

/-- Function `stopTimer()`: `clearInterval(timerInterval)` cancels the overlay
interval (a no-op when none is scheduled), and the readout element is
removed if present. -/
def stopTimer (s : SysState) : SysState :=
  { s with timerActive := false, timerElement := false }

/-- Function `startTimer(durationSeconds)`: first calls `stopTimer()`, then mounts a
fresh readout element and schedules a 100 ms interval; `startTime`
(`Date.now()` at the call) and the duration are captured in the closure.
Duration is kept in milliseconds (`3.5` seconds becomes `3500`). -/
def startTimer (durationMs : Int) (now : Int) (s : SysState) : SysState :=
  let s1 := stopTimer s
  { s1 with
    timerElement := true
    timerActive := true
    timerStart := now
    timerDurationMs := durationMs }

/-- One tick of the overlay interval: if `elapsedTime >= durationSeconds`
the overlay stops itself, otherwise it only rewrites the readout text.
(`(now - startTime) / 1000 >= durationSeconds` is stated without the
division as `now - startTime >= durationMs`.) -/
def overlayTick (now : Int) (s : SysState) : SysState :=
  if now - s.timerStart ≥ s.timerDurationMs then stopTimer s else s

/-- Function `resetSequence(message)`: `clearInterval(cpsUpdateInterval)`, then
`stopTimer()`, then `window.location.reload()`.  The message argument is
recorded; the burst `setTimeout` handle is not stored anywhere and is not
cleared here. -/
def resetSequence (message : ResetMsg) (s : SysState) : SysState :=
  let s1 := { s with cpsActive := false, resetMessage := some message }
  let s2 := stopTimer s1
  { s2 with reloadRequested := true }

/-- Click handler of zone 1: only acts when `state === 0`; records the
timestamp, starts a 3.5 s overlay, swaps zone 1 for zone 2. -/
def zone1Click (now : Int) (s : SysState) : SysState :=
  if s.state = 0 then
    let s1 := { s with state := 1, lastClickTimestamp := now }
    let s2 := startTimer 3500 now s1
    { s2 with mountedZone := 2 }
  else s

/-- Click handler of zone 2: only acts when `state === 1`; accepts iff
`timeDiff ∈ [2000, 3500]`, else resets. -/
def zone2Click (now : Int) (s : SysState) : SysState :=
  if s.state = 1 then
    let timeDiff := now - s.lastClickTimestamp
    if 2000 ≤ timeDiff ∧ timeDiff ≤ 3500 then
      let s1 := { s with state := 2, lastClickTimestamp := now }
      let s2 := startTimer 4500 now s1
      { s2 with mountedZone := 3 }
    else
      resetSequence (.badTiming2 timeDiff) s
  else s

/-- Click handler of zone 3, translated branch by branch:
`state === 2` (window [3000,4500] → stage 3), `state === 3`
(window [2000,3000] → stage 4, stop overlay, label "START"),
then the `state === 4 || state === 5` block — note that the
`state === 4` arm sets `state = 5`, so the following separate
`if (state === 5)` check also pushes the timestamp of the arming click. -/
def zone3Click (now : Int) (s : SysState) : SysState :=
  if s.state = 2 then
    let timeDiff := now - s.lastClickTimestamp
    if 3000 ≤ timeDiff ∧ timeDiff ≤ 4500 then
      startTimer 3000 now { s with state := 3, lastClickTimestamp := now }
    else
      resetSequence (.badTiming3 timeDiff) s
  else if s.state = 3 then
    let timeDiff := now - s.lastClickTimestamp
    if 2000 ≤ timeDiff ∧ timeDiff ≤ 3000 then
      let s1 := stopTimer { s with state := 4 }
      { s1 with zone3Label := .startLabel }
    else
      resetSequence (.badTiming4 timeDiff) s
  else if s.state = 4 ∨ s.state = 5 then
    let s1 :=
      if s.state = 4 then
        let a := { s with state := 5, clickerTimestamps := ([] : List Int) }
        let b := startTimer 3000 now a
        { b with burstPending := true, cpsActive := true }
      else s
    if s1.state = 5 then
      { s1 with clickerTimestamps := s1.clickerTimestamps ++ [now] }
    else s1
  else s

/-- Body of the 3000 ms burst-evaluation `setTimeout` callback: guarded by
`if (state === 5)`; on `totalClicks >= 180` it moves to stage 6, clears the
rate interval, stops the overlay, shows "OK" and issues the verification
fetch; otherwise it calls `resetSequence` with the tally in the message. -/
def burstEvalBody (s : SysState) : SysState :=
  if s.state = 5 then
    let totalClicks := s.clickerTimestamps.length
    if totalClicks ≥ 180 then
      let s1 := stopTimer { s with state := 6, cpsActive := false }
      { s1 with zone3Label := .ok, fetchIssued := true }
    else
      resetSequence (.burstShort totalClicks) s
  else s

/-- The burst `setTimeout` firing: the timeout is consumed (no longer
pending) and its callback body runs. -/
def burstEvalFire (s : SysState) : SysState :=
  burstEvalBody { s with burstPending := false }

/-- The expression `clickerTimestamps.filter(ts => Date.now() - ts < 1000).length`. -/
def currentCPS (now : Int) (timestamps : List Int) : Nat :=
  (timestamps.filter fun ts => now - ts < 1000).length

/-- Body of the 100 ms `cpsUpdateInterval` callback: computes the rolling
one-second count and writes it to the label of zone 3; nothing else. -/
def cpsTickBody (now : Int) (s : SysState) : SysState :=
  { s with zone3Label := .count (currentCPS now s.clickerTimestamps) }

/-- Handler chain of the verification fetch:
`.then(r => r.json()).then(d => { if (d.path) window.location.href = d.path; })
.catch(err => { ...; resetSequence("Ошибка связи."); })`.
A parsed body with a `path` navigates; a parsed body without `path` does
nothing at all; a rejected promise resets. -/
def handleActivation (r : FetchResult) (s : SysState) : SysState :=
  match r with
  | .ok (some p) => { s with navigateTo := some p }
  | .ok none => s
  | .err => resetSequence .commError s

/-- The discrete events the browser can deliver to this script within one
page lifetime. -/
inductive Event
  | click1 (now : Int)
  | click2 (now : Int)
  | click3 (now : Int)
  | burstFire
  | cpsTick (now : Int)
  | overlayTickAt (now : Int)
  | activation (r : FetchResult)

/-- One event step: each callback runs only if its source (timeout,
interval, fetch) is actually outstanding. -/
def step (e : Event) (s : SysState) : SysState :=
  match e with
  | .click1 now => zone1Click now s
  | .click2 now => zone2Click now s
  | .click3 now => zone3Click now s
  | .burstFire => if s.burstPending then burstEvalFire s else s
  | .cpsTick now => if s.cpsActive then cpsTickBody now s else s
  | .overlayTickAt now => if s.timerActive then overlayTick now s else s
  | .activation r => if s.fetchIssued then handleActivation r s else s

/-! Exemplar reachable states used by concrete counterexamples and
witnesses. -/

/-- A state in stage 1: the zone 1 click happened at time 0. -/
def exStage1 : SysState :=
  { initState with
    state := 1, lastClickTimestamp := 0, timerActive := true,
    timerElement := true, timerStart := 0, timerDurationMs := 3500,
    mountedZone := 2 }

/-- A state in stage 2 whose last accepted click happened at time 0. -/
def exStage2 : SysState :=
  { exStage1 with
    state := 2, timerDurationMs := 4500, mountedZone := 3 }

/-- A state in stage 3 whose last accepted click happened at time 0. -/
def exStage3 : SysState :=
  { exStage2 with state := 3, timerDurationMs := 3000 }

/-- A state in stage 4: overlay stopped, zone 3 re-skinned to START. -/
def exStage4 : SysState :=
  { exStage3 with
    state := 4, timerActive := false, timerElement := false,
    zone3Label := .startLabel }

/-- A state in stage 5: burst in progress, burst timeout pending, rate
interval and overlay running. -/
def exStage5 : SysState :=
  { exStage4 with
    state := 5, burstPending := true, cpsActive := true,
    timerActive := true, timerElement := true,
    clickerTimestamps := [100, 200, 300] }

/-- A state in stage 6 right after the successful burst evaluation: the
verification fetch has been issued and no response has arrived yet. -/
def exStage6 : SysState :=
  { exStage5 with
    state := 6, burstPending := false, cpsActive := false,
    timerActive := false, timerElement := false,
    zone3Label := .ok, fetchIssued := true,
    clickerTimestamps := List.replicate 180 100 }

/-- C1 counterexample: clicking zone 3 in stage 4 (at time 10000) moves to
stage 5 but leaves the ClickBuffer with ONE element — the timestamp of the
arming click itself — not zero as the claim states. -/
theorem C1_counterexample :
    (zone3Click 10000 exStage4).state = 5 ∧
    (zone3Click 10000 exStage4).clickerTimestamps.length ≠ 0 ∧
    (zone3Click 10000 exStage4).clickerTimestamps = [10000] := by
  decide

/-- C1 (amended): the stage-4 click clears the ClickBuffer and then the
`if (state === 5)` branch appends the timestamp of the arming click, so
immediately after the transition the buffer is exactly `[now]` (length 1)
and the arming click contributes one unit to the final tally. -/
theorem C1_arming_click_appended (now : Int) (s : SysState)
    (h : s.state = 4) :
    (zone3Click now s).state = 5 ∧
    (zone3Click now s).clickerTimestamps = [now] ∧
    (zone3Click now s).burstPending = true ∧
    (zone3Click now s).cpsActive = true := by
  simp [zone3Click, h, startTimer, stopTimer]

/-- C1 witness: the amended statement at the concrete stage-4 state. -/
theorem C1_arming_click_appended_witness :
    exStage4.state = 4 ∧
    (zone3Click 10000 exStage4).clickerTimestamps = [10000] :=
  ⟨by decide, (C1_arming_click_appended 10000 exStage4 (by decide)).2.1⟩

/-- C4 counterexample: a successfully parsed verification response whose
body has no `path` field leaves the stage-6 state completely unchanged —
no reset is requested and no navigation happens — whereas a network/parse
error does request a reset. -/
theorem C4_counterexample :
    handleActivation (.ok none) exStage6 = exStage6 ∧
    (handleActivation (.ok none) exStage6).reloadRequested = false ∧
    (handleActivation (.ok none) exStage6).navigateTo = none ∧
    (handleActivation .err exStage6).reloadRequested = true := by
  refine ⟨rfl, by decide, by decide, by decide⟩

/-- C4 (amended): only a rejected fetch promise (network or parse error)
invokes `resetSequence`; a parsed body without the navigation-target field
is a complete no-op, leaving the system idle at stage 6; a body with a
`path` navigates there. No retry in any case. -/
theorem C4_missing_path_is_noop (s : SysState) :
    handleActivation (.ok none) s = s ∧
    (handleActivation .err s).reloadRequested = true ∧
    (handleActivation .err s).resetMessage = some .commError ∧
    ∀ p : String, (handleActivation (.ok (some p)) s).navigateTo = some p := by
  refine ⟨rfl, ?_, ?_, fun p => rfl⟩ <;>
    simp [handleActivation, resetSequence, stopTimer]

/-- C5 counterexample: invoking `resetSequence` in a stage-5 state whose
3000 ms burst-evaluation timeout is still pending leaves that timeout
pending — the deferred action is NOT cancelled before the reload. -/
theorem C5_counterexample :
    exStage5.burstPending = true ∧
    (resetSequence (.burstShort 3) exStage5).burstPending = true ∧
    (resetSequence (.burstShort 3) exStage5).reloadRequested = true := by
  decide

/-- C5 (amended): `resetSequence` cancels the rate-display interval and the
overlay interval (removing the overlay element) before forcing the reload,
but it does not cancel the burst-evaluation deferred action, whose handle
is never stored; that callback is neutralized only by its own stage
re-check and by the page reload. -/
theorem C5_reset_cancellations (m : ResetMsg) (s : SysState) :
    (resetSequence m s).cpsActive = false ∧
    (resetSequence m s).timerActive = false ∧
    (resetSequence m s).timerElement = false ∧
    (resetSequence m s).reloadRequested = true ∧
    (resetSequence m s).burstPending = s.burstPending := by
  simp [resetSequence, stopTimer]

/-- C6: the burst-evaluation callback re-checks the stage when it fires;
if the stage is no longer 5 the callback body changes nothing at all. -/
theorem C6_stale_stage_guard (s : SysState) (h : s.state ≠ 5) :
    burstEvalBody s = s := by
  simp [burstEvalBody, h]

/-- C6 witness: the guard at the concrete stage-6 state. -/
theorem C6_stale_stage_guard_witness :
    exStage6.state ≠ 5 ∧ burstEvalBody exStage6 = exStage6 :=
  ⟨by decide, C6_stale_stage_guard exStage6 (by decide)⟩

/-- C2: for each timed transition (stage 1→2 window [2000,3500], stage 2→3
window [3000,4500], stage 3→4 window [2000,3000]), an elapsed time inside
the inclusive window (in particular exactly at either boundary) advances
the stage without a reset, and an elapsed time strictly below the minimum
or strictly above the maximum triggers a reset. -/
theorem C2_timing_windows (now : Int) (s : SysState) :
    (s.state = 1 →
      ((2000 ≤ now - s.lastClickTimestamp ∧ now - s.lastClickTimestamp ≤ 3500) →
        (zone2Click now s).state = 2 ∧
        (zone2Click now s).reloadRequested = s.reloadRequested) ∧
      ((now - s.lastClickTimestamp < 2000 ∨ 3500 < now - s.lastClickTimestamp) →
        (zone2Click now s).reloadRequested = true ∧
        (zone2Click now s).resetMessage =
          some (.badTiming2 (now - s.lastClickTimestamp)))) ∧
    (s.state = 2 →
      ((3000 ≤ now - s.lastClickTimestamp ∧ now - s.lastClickTimestamp ≤ 4500) →
        (zone3Click now s).state = 3 ∧
        (zone3Click now s).reloadRequested = s.reloadRequested) ∧
      ((now - s.lastClickTimestamp < 3000 ∨ 4500 < now - s.lastClickTimestamp) →
        (zone3Click now s).reloadRequested = true ∧
        (zone3Click now s).resetMessage =
          some (.badTiming3 (now - s.lastClickTimestamp)))) ∧
    (s.state = 3 →
      ((2000 ≤ now - s.lastClickTimestamp ∧ now - s.lastClickTimestamp ≤ 3000) →
        (zone3Click now s).state = 4 ∧
        (zone3Click now s).reloadRequested = s.reloadRequested) ∧
      ((now - s.lastClickTimestamp < 2000 ∨ 3000 < now - s.lastClickTimestamp) →
        (zone3Click now s).reloadRequested = true ∧
        (zone3Click now s).resetMessage =
          some (.badTiming4 (now - s.lastClickTimestamp)))) := by
  refine ⟨fun h1 => ⟨fun hin => ?_, fun hout => ?_⟩,
         fun h2 => ⟨fun hin => ?_, fun hout => ?_⟩,
         fun h3 => ⟨fun hin => ?_, fun hout => ?_⟩⟩
  · simp [zone2Click, h1, startTimer, stopTimer, hin.1, hin.2]
  · have hn : ¬ (2000 ≤ now - s.lastClickTimestamp ∧
        now - s.lastClickTimestamp ≤ 3500) := by omega
    simp only [zone2Click, h1, if_pos rfl, if_neg hn]
    simp [resetSequence, stopTimer]
  · have h2a : s.state = 2 := h2
    simp [zone3Click, h2a, startTimer, stopTimer, hin.1, hin.2]
  · have hn : ¬ (3000 ≤ now - s.lastClickTimestamp ∧
        now - s.lastClickTimestamp ≤ 4500) := by omega
    simp only [zone3Click, h2, if_pos rfl, if_neg hn]
    simp [resetSequence, stopTimer]
  · simp [zone3Click, h3, startTimer, stopTimer, hin.1, hin.2]
  · have hn : ¬ (2000 ≤ now - s.lastClickTimestamp ∧
        now - s.lastClickTimestamp ≤ 3000) := by omega
    have h2f : ¬ s.state = 2 := by simp [h3]
    simp only [zone3Click, if_neg h2f, h3, if_pos rfl, if_neg hn]
    simp [resetSequence, stopTimer]

/-- C2 witness: concrete boundary and off-by-one clicks against the
exemplar states (last accepted click at time 0). -/
theorem C2_timing_windows_witness :
    (zone2Click 2000 exStage1).state = 2 ∧
    (zone2Click 3500 exStage1).state = 2 ∧
    (zone2Click 1999 exStage1).reloadRequested = true ∧
    (zone2Click 3501 exStage1).reloadRequested = true ∧
    (zone3Click 3000 exStage2).state = 3 ∧
    (zone3Click 4500 exStage2).state = 3 ∧
    (zone3Click 2999 exStage2).reloadRequested = true ∧
    (zone3Click 4501 exStage2).reloadRequested = true ∧
    (zone3Click 2000 exStage3).state = 4 ∧
    (zone3Click 3000 exStage3).state = 4 ∧
    (zone3Click 1999 exStage3).reloadRequested = true ∧
    (zone3Click 3001 exStage3).reloadRequested = true :=
  ⟨(((C2_timing_windows 2000 exStage1).1 (by decide)).1 (by decide)).1,
   (((C2_timing_windows 3500 exStage1).1 (by decide)).1 (by decide)).1,
   (((C2_timing_windows 1999 exStage1).1 (by decide)).2 (by decide)).1,
   (((C2_timing_windows 3501 exStage1).1 (by decide)).2 (by decide)).1,
   (((C2_timing_windows 3000 exStage2).2.1 (by decide)).1 (by decide)).1,
   (((C2_timing_windows 4500 exStage2).2.1 (by decide)).1 (by decide)).1,
   (((C2_timing_windows 2999 exStage2).2.1 (by decide)).2 (by decide)).1,
   (((C2_timing_windows 4501 exStage2).2.1 (by decide)).2 (by decide)).1,
   (((C2_timing_windows 2000 exStage3).2.2 (by decide)).1 (by decide)).1,
   (((C2_timing_windows 3000 exStage3).2.2 (by decide)).1 (by decide)).1,
   (((C2_timing_windows 1999 exStage3).2.2 (by decide)).2 (by decide)).1,
   (((C2_timing_windows 3001 exStage3).2.2 (by decide)).2 (by decide)).1⟩

/-- C3: when the burst evaluation runs with the stage still 5, a tally of
at least 180 moves to stage 6, stops the rate interval and the overlay and
issues the verification fetch; a tally of at most 179 requests a reset
whose message carries the tally out of 180. -/
theorem C3_burst_threshold (s : SysState) (h : s.state = 5) :
    (180 ≤ s.clickerTimestamps.length →
      (burstEvalBody s).state = 6 ∧
      (burstEvalBody s).cpsActive = false ∧
      (burstEvalBody s).timerActive = false ∧
      (burstEvalBody s).timerElement = false ∧
      (burstEvalBody s).fetchIssued = true ∧
      (burstEvalBody s).reloadRequested = s.reloadRequested) ∧
    (s.clickerTimestamps.length < 180 →
      (burstEvalBody s).reloadRequested = true ∧
      (burstEvalBody s).resetMessage =
        some (.burstShort s.clickerTimestamps.length) ∧
      (burstEvalBody s).fetchIssued = s.fetchIssued) := by
  constructor
  · intro hge
    simp [burstEvalBody, h, stopTimer, hge]
  · intro hlt
    have hn : ¬ 180 ≤ s.clickerTimestamps.length := by omega
    simp [burstEvalBody, h, resetSequence, stopTimer, hn]

/-- A stage-5 state whose burst collected exactly 180 clicks. -/
def exBurst180 : SysState :=
  { exStage5 with clickerTimestamps := List.replicate 180 100 }

/-- A stage-5 state whose burst collected only 179 clicks. -/
def exBurst179 : SysState :=
  { exStage5 with clickerTimestamps := List.replicate 179 100 }

/-- C3 witness: tallies of exactly 180 and of 179 against concrete
stage-5 states. -/
theorem C3_burst_threshold_witness :
    (burstEvalBody exBurst180).state = 6 ∧
    (burstEvalBody exBurst179).reloadRequested = true :=
  ⟨((C3_burst_threshold exBurst180 rfl).1
      (by rw [show exBurst180.clickerTimestamps = List.replicate 180 100 from
                rfl, List.length_replicate])).1,
   ((C3_burst_threshold exBurst179 rfl).2
      (by rw [show exBurst179.clickerTimestamps = List.replicate 179 100 from
                rfl, List.length_replicate]; omega)).1⟩

/-- C7: across every possible event within one page lifetime the in-memory
stage never decreases — each step leaves it unchanged or advances it by
exactly one (0→1→…→6); resets only request a full page reload and never
lower the in-memory value. -/
theorem C7_stage_monotone (e : Event) (s : SysState) :
    (step e s).state = s.state ∨ (step e s).state = s.state + 1 := by
  cases e with
  | click1 now =>
    simp only [step, zone1Click]
    split
    · next h => right; simp [startTimer, stopTimer, h]
    · left; rfl
  | click2 now =>
    simp only [step, zone2Click]
    split
    · next h =>
      split
      · right; simp [startTimer, stopTimer, h]
      · left; simp [resetSequence, stopTimer]
    · left; rfl
  | click3 now =>
    simp only [step, zone3Click]
    split
    · next h =>
      split
      · right; simp [startTimer, stopTimer, h]
      · left; simp [resetSequence, stopTimer]
    · split
      · next h =>
        split
        · right; simp [stopTimer, h]
        · left; simp [resetSequence, stopTimer]
      · split
        · next h =>
          rcases h with h4 | h5
          · right
            simp [h4, startTimer, stopTimer,
                  if_neg (show ¬ (4:Nat) = 2 by decide),
                  if_neg (show ¬ (4:Nat) = 3 by decide)]
          · left
            have h4f : ¬ s.state = 4 := by simp [h5]
            simp [h5, h4f, startTimer, stopTimer]
        · left; rfl
  | burstFire =>
    simp only [step]
    split
    · simp only [burstEvalFire, burstEvalBody]
      split
      · next h =>
        split
        · right; simp_all [stopTimer]
        · left; simp_all [resetSequence, stopTimer]
      · left; simp_all
    · left; rfl
  | cpsTick now =>
    simp only [step]
    split
    · left; simp [cpsTickBody]
    · left; rfl
  | overlayTickAt now =>
    simp only [step, overlayTick]
    split
    · split
      · left; simp [stopTimer]
      · left; rfl
    · left; rfl
  | activation r =>
    simp only [step]
    split
    · cases r with
      | ok p =>
        cases p with
        | none => left; rfl
        | some q => left; simp [handleActivation]
      | err => left; simp [handleActivation, resetSequence, stopTimer]
    · left; rfl

/-- C8: the overlay is unique and its teardown is idempotent —
`stopTimer` twice equals `stopTimer` once, `stopTimer` on a state with no
active overlay and no readout changes nothing, and `startTimer` behaves
exactly as if it first ran `stopTimer` on any prior overlay. -/
theorem C8_overlay_single (d now : Int) (s : SysState) :
    stopTimer (stopTimer s) = stopTimer s ∧
    (s.timerActive = false → s.timerElement = false → stopTimer s = s) ∧
    startTimer d now s = startTimer d now (stopTimer s) := by
  refine ⟨rfl, fun h1 h2 => ?_, rfl⟩
  cases s
  simp_all [stopTimer]

/-- C8 witness: idempotence and the inactive no-op at the initial state. -/
theorem C8_overlay_single_witness :
    initState.timerActive = false ∧ initState.timerElement = false ∧
    stopTimer initState = initState :=
  ⟨by decide, by decide,
   (C8_overlay_single 3500 0 initState).2.1 (by decide) (by decide)⟩

/-- C9: one tick of the 100 ms rate-display interval writes to the zone-3
label exactly the number of ClickBuffer entries strictly within the
trailing second (`now - ts < 1000`) and mutates neither the ClickBuffer
nor the stage nor any other state. -/
theorem C9_rate_display (now : Int) (s : SysState) :
    (cpsTickBody now s).zone3Label =
      .count (s.clickerTimestamps.countP fun ts => now - ts < 1000) ∧
    (cpsTickBody now s).clickerTimestamps = s.clickerTimestamps ∧
    (cpsTickBody now s).state = s.state ∧
    (cpsTickBody now s).burstPending = s.burstPending ∧
    (cpsTickBody now s).reloadRequested = s.reloadRequested := by
  refine ⟨?_, rfl, rfl, rfl, rfl⟩
  simp [cpsTickBody, currentCPS, List.countP_eq_length_filter]

/-- C10: a click on a zone whose guard does not match the current stage is
a complete no-op — the whole state (stage, buffer, timers, labels, reload
flag) is unchanged and no reset happens. -/
theorem C10_guard_mismatch_noop (now : Int) (s : SysState) :
    (s.state ≠ 0 → zone1Click now s = s) ∧
    (s.state ≠ 1 → zone2Click now s = s) ∧
    (s.state ≠ 2 → s.state ≠ 3 → s.state ≠ 4 → s.state ≠ 5 →
      zone3Click now s = s) := by
  refine ⟨fun h0 => ?_, fun h1 => ?_, fun h2 h3 h4 h5 => ?_⟩
  · simp [zone1Click, h0]
  · simp [zone2Click, h1]
  · simp [zone3Click, h2, h3, h4, h5]

/-- C10 witness: clicks on all three zones in the stage-6 state change
nothing. -/
theorem C10_guard_mismatch_noop_witness :
    zone1Click 99999 exStage6 = exStage6 ∧
    zone2Click 99999 exStage6 = exStage6 ∧
    zone3Click 99999 exStage6 = exStage6 :=
  ⟨(C10_guard_mismatch_noop 99999 exStage6).1 (by decide),
   (C10_guard_mismatch_noop 99999 exStage6).2.1 (by decide),
   (C10_guard_mismatch_noop 99999 exStage6).2.2 (by decide) (by decide)
     (by decide) (by decide)⟩

end SecretLogic
